import Mathlib

/-!
Verification of the content-backend API: a shallow embedding of the user,
post and comment controllers together with their role-lifecycle and
authorization rules, followed by theorems about the claimed properties.

The database collections are modelled as lists of records; the Mongo
queries used by the controllers become list operations:
`findById` is `List.find?` on the id field, `countDocuments` on a role
filter is `List.countP`, `findByIdAndDelete` is `List.eraseP`, and a
`save` of a mutated document writes it back via `List.map` on its id.
Roles are stored as strings, exactly as in the database schema, and
compared to the literals used by the JavaScript code.
-/

namespace ContentBackend

/-- The valid roles, from `validRoles` in `updateUserRole`. -/
def validRoles : List String := ["admin", "author", "reader"]

/-- A user record as persisted by the credential store. -/
structure User where
  id : Nat
  name : String
  email : String
  password : String
  role : String
  deriving Repr, DecidableEq

/-- An embedded comment subdocument of a post: `user` is the id of the
commenting user, `comment` is the text body. -/
structure Comment where
  id : Nat
  user : Nat
  comment : String
  deriving Repr, DecidableEq

/-- A post record with its embedded, ordered comment list. -/
structure Post where
  id : Nat
  title : String
  content : String
  author : Nat
  comments : List Comment
  deriving Repr, DecidableEq

/-- The persistent state: the users collection and the posts collection. -/
structure State where
  users : List User
  posts : List Post
  deriving Repr, DecidableEq

/-- The authenticated request identity decoded from the bearer token by the
auth middleware: `req.user` carries an id and a point-in-time role snapshot. -/
structure Actor where
  id : Nat
  role : String
  deriving Repr, DecidableEq

/-- `User.findById` on the users collection. -/
def findUserById (users : List User) (id : Nat) : Option User :=
  users.find? (fun u => u.id == id)

/-- `User.findOne` on the email field. -/
def findUserByEmail (users : List User) (email : String) : Option User :=
  users.find? (fun u => u.email == email)

/-- `User.countDocuments` with the role filter `admin`. -/
def countAdmins (users : List User) : Nat :=
  users.countP (fun u => u.role == "admin")

/-- Outcome of `registerUser`. -/
inductive RegisterResult
  | userExists
  | created (user : User)
  deriving Repr, DecidableEq

/-- `registerUser` from authController.js. `newId` stands for the id the
store assigns to the created document. The role assignment counts the
existing users at creation time: zero users means `admin`, otherwise
`reader`. -/
def registerUser (s : State) (name email password : String) (newId : Nat) :
    RegisterResult × State :=
  match findUserByEmail s.users email with
  | some _ => (.userExists, s)
  | none =>
    let role := if s.users.length = 0 then "admin" else "reader"
    let user : User := ⟨newId, name, email, password, role⟩
    (.created user, { s with users := s.users ++ [user] })

/-- Outcome of `loginUser`. -/
inductive LoginResult
  | ok (user : User)
  | invalidCredentials
  deriving Repr, DecidableEq

/-- `loginUser` from authController.js. The bcrypt comparison against the
stored hash is abstracted as the predicate `pwMatches`; the operation never
writes to the store. -/
def loginUser (s : State) (email : String) (pwMatches : String → Bool) :
    LoginResult × State :=
  match findUserByEmail s.users email with
  | some u => if pwMatches u.password then (.ok u, s) else (.invalidCredentials, s)
  | none => (.invalidCredentials, s)

/-- Outcome of `updateUserRole`, one constructor per early return of the
handler, in source order. -/
inductive RoleUpdateResult
  | userNotFound
  | privilegeRevoked
  | selfModificationForbidden
  | invalidRole
  | lastAdminProtection
  | adminCeilingReached
  | success
  deriving Repr, DecidableEq

/-- `userToUpdate.role = role; userToUpdate.save()`: writes the mutated
document back into the collection by id. -/
def setUserRole (users : List User) (targetId : Nat) (newRole : String) : List User :=
  users.map (fun u => if u.id = targetId then { u with role := newRole } else u)

/-- `updateUserRole` from authController.js, with its guards in source
order: target lookup, actor admin re-verification, self-modification ban,
role validation, last-admin protection, admin ceiling, then the write. -/
def updateUserRole (s : State) (actorId targetId : Nat) (newRole : String) :
    RoleUpdateResult × State :=
  match findUserById s.users targetId with
  | none => (.userNotFound, s)
  | some userToUpdate =>
    match findUserById s.users actorId with
    | none => (.privilegeRevoked, s)
    | some currentUser =>
      if currentUser.role ≠ "admin" then (.privilegeRevoked, s)
      else if actorId = targetId then (.selfModificationForbidden, s)
      else if newRole ∉ validRoles then (.invalidRole, s)
      else if userToUpdate.role = "admin" ∧ newRole ≠ "admin" ∧
          countAdmins s.users ≤ 1 then (.lastAdminProtection, s)
      else if newRole = "admin" ∧ userToUpdate.role ≠ "admin" ∧
          5 ≤ countAdmins s.users then (.adminCeilingReached, s)
      else (.success, { s with users := setUserRole s.users targetId newRole })

/-- Outcome of `deleteUser`. -/
inductive DeleteUserResult
  | userNotFound
  | success
  deriving Repr, DecidableEq

/-- `deleteUser` from authController.js: `findByIdAndDelete` with no
further guard. -/
def deleteUser (s : State) (targetId : Nat) : DeleteUserResult × State :=
  match findUserById s.users targetId with
  | none => (.userNotFound, s)
  | some _ =>
    (.success, { s with users := s.users.eraseP (fun u => u.id == targetId) })

/-- `Post.findById` on the posts collection. -/
def findPostById (posts : List Post) (id : Nat) : Option Post :=
  posts.find? (fun p => p.id == id)

/-- `post.comments.id(commentId)`: look up an embedded comment by id. -/
def findCommentById (comments : List Comment) (id : Nat) : Option Comment :=
  comments.find? (fun c => c.id == id)

/-- Outcome of a post or comment operation, one constructor per early
return of the handlers. -/
inductive PostOpResult
  | postNotFound
  | accessDenied
  | commentNotFound
  | deleteFailed
  | success
  deriving Repr, DecidableEq

/-- `createPost` from the post controller: the author field is set from the
token identity. `newId` stands for the store-assigned id. -/
def createPost (s : State) (actor : Actor) (title content : String) (newId : Nat) :
    PostOpResult × State :=
  (.success, { s with posts := s.posts ++ [⟨newId, title, content, actor.id, []⟩] })

/-- JavaScript `newVal || old` on a request-body string field: `undefined`,
`null` and the empty string are falsy and fall back to the stored value. A
missing or null field is `none`; a present string is `some`. -/
def jsOrElse (newVal : Option String) (old : String) : String :=
  match newVal with
  | none => old
  | some v => if v = "" then old else v

/-- The post-document mutation performed by `updatePost` before `save`. -/
def updatePostStored (posts : List Post) (postId : Nat) (title content : Option String) :
    List Post :=
  posts.map (fun p =>
    if p.id = postId then
      { p with title := jsOrElse title p.title, content := jsOrElse content p.content }
    else p)

/-- `updatePost` from the post controller: only the author or an admin may
update; title and content fall back to the stored values when falsy. -/
def updatePost (s : State) (actor : Actor) (postId : Nat) (title content : Option String) :
    PostOpResult × State :=
  match findPostById s.posts postId with
  | none => (.postNotFound, s)
  | some post =>
    if post.author ≠ actor.id ∧ actor.role ≠ "admin" then (.accessDenied, s)
    else (.success, { s with posts := updatePostStored s.posts postId title content })

/-- `deletePost` from the post controller: authorization check, then
`findByIdAndDelete` looks the post up again and removes it. -/
def deletePost (s : State) (actor : Actor) (postId : Nat) : PostOpResult × State :=
  match findPostById s.posts postId with
  | none => (.postNotFound, s)
  | some post =>
    if post.author ≠ actor.id ∧ actor.role ≠ "admin" then (.accessDenied, s)
    else
      match findPostById s.posts postId with
      | none => (.deleteFailed, s)
      | some _ => (.success, { s with posts := s.posts.eraseP (fun p => p.id == postId) })

/-- The post-document mutation performed by `addComment` before `save`:
push the new comment at the end of the embedded list. -/
def addCommentStored (posts : List Post) (postId : Nat) (c : Comment) : List Post :=
  posts.map (fun p => if p.id = postId then { p with comments := p.comments ++ [c] } else p)

/-- `addComment` from the post controller: no authorization beyond the
route middleware; the comment carries the token identity's user id.
`newCommentId` stands for the store-assigned subdocument id. -/
def addComment (s : State) (actor : Actor) (postId : Nat) (text : String)
    (newCommentId : Nat) : PostOpResult × State :=
  match findPostById s.posts postId with
  | none => (.postNotFound, s)
  | some _ =>
    (.success,
      { s with posts := addCommentStored s.posts postId ⟨newCommentId, actor.id, text⟩ })

/-- The post-document mutation performed by `deleteComment` before `save`:
`comment.deleteOne()` removes the subdocument from the embedded list. -/
def removeCommentStored (posts : List Post) (postId commentId : Nat) : List Post :=
  posts.map (fun p =>
    if p.id = postId then
      { p with comments := p.comments.eraseP (fun c => c.id == commentId) }
    else p)

/-- `deleteComment` from the post controller: allowed for an admin, the
post's author, or the comment's owner. -/
def deleteComment (s : State) (actor : Actor) (postId commentId : Nat) :
    PostOpResult × State :=
  match findPostById s.posts postId with
  | none => (.postNotFound, s)
  | some post =>
    match findCommentById post.comments commentId with
    | none => (.commentNotFound, s)
    | some comment =>
      if ¬(actor.role = "admin") ∧ ¬(post.author = actor.id) ∧
          ¬(comment.user = actor.id) then (.accessDenied, s)
      else (.success, { s with posts := removeCommentStored s.posts postId commentId })

/-! ### Helper lemmas -/

/-- A map that preserves the search predicate commutes with `find?`. -/
lemma find?_map_eq {α : Type} (l : List α) (f : α → α) (p : α → Bool)
    (hp : ∀ x, p (f x) = p x) {a : α} (h : l.find? p = some a) :
    (l.map f).find? p = some (f a) := by
  induction l with
  | nil => simp at h
  | cons x xs ih =>
    by_cases hx : p x
    · rw [List.find?_cons_of_pos _ hx] at h
      injection h with h
      subst h
      rw [List.map_cons, List.find?_cons_of_pos _ (by rw [hp]; exact hx)]
    · rw [List.find?_cons_of_neg _ hx] at h
      rw [List.map_cons, List.find?_cons_of_neg _ (by rw [hp x]; exact hx)]
      exact ih h

/-- The write-back of `setUserRole` never changes a user's id. -/
lemma setUserRole_id_eq (u : User) (targetId : Nat) (newRole : String) :
    (if u.id = targetId then { u with role := newRole } else u).id = u.id := by
  split <;> rfl

/-! ### C2: guard order in the role update -/

/-- C2 (counterexample to the claim as stated): the target lookup runs
before the admin re-verification, so a request whose actor's persisted role
is `reader` but whose target id is absent from the store is answered with
`userNotFound`, not `privilegeRevoked`. -/
theorem C2_guard_order_counterexample :
    findUserById [⟨1, "a", "a@x", "p", "reader"⟩] 1 =
      some ⟨1, "a", "a@x", "p", "reader"⟩ ∧
    (updateUserRole ⟨[⟨1, "a", "a@x", "p", "reader"⟩], []⟩ 1 2 "reader").1 =
      RoleUpdateResult.userNotFound ∧
    (updateUserRole ⟨[⟨1, "a", "a@x", "p", "reader"⟩], []⟩ 1 2 "reader").1 ≠
      RoleUpdateResult.privilegeRevoked := by
  refine ⟨by decide, by decide, by decide⟩

/-- C2 (amended): the target lookup runs before the admin re-verification.
For every state, actor and requested role: when the target id is absent
from the store the call fails with `userNotFound` — regardless of the
actor — and leaves the state unchanged; when the target is found and the
actor is missing from the store or the actor's persisted role is not
admin, the call fails with `privilegeRevoked` and leaves the state
unchanged. -/
theorem C2_privilege_revoked (s : State) (actorId targetId : Nat)
    (newRole : String) :
    (findUserById s.users targetId = none →
      (updateUserRole s actorId targetId newRole).1 =
        RoleUpdateResult.userNotFound ∧
      (updateUserRole s actorId targetId newRole).2 = s) ∧
    (∀ u, findUserById s.users targetId = some u →
      (∀ a : User, findUserById s.users actorId = some a → a.role ≠ "admin") →
      (updateUserRole s actorId targetId newRole).1 =
        RoleUpdateResult.privilegeRevoked ∧
      (updateUserRole s actorId targetId newRole).2 = s) := by
  constructor
  · intro hT
    simp [updateUserRole, hT]
  · intro u hT hA
    cases hActor : findUserById s.users actorId with
    | none => simp [updateUserRole, hT, hActor]
    | some a =>
      have ha : a.role ≠ "admin" := hA a hActor
      simp [updateUserRole, hT, hActor, ha]

/-- Witness for C2_privilege_revoked at concrete stores: a missing target
is answered with `userNotFound` for an admin actor and for a reader actor
alike, and a found target with a demoted actor is answered with
`privilegeRevoked`. -/
theorem C2_privilege_revoked_witness :
    ((updateUserRole ⟨[⟨1, "a", "a@x", "p", "admin"⟩], []⟩ 1 2 "reader").1 =
      RoleUpdateResult.userNotFound) ∧
    ((updateUserRole ⟨[⟨1, "a", "a@x", "p", "reader"⟩], []⟩ 1 2 "reader").1 =
      RoleUpdateResult.userNotFound) ∧
    ((updateUserRole ⟨[⟨1, "a", "a@x", "p", "reader"⟩, ⟨2, "b", "b@x", "p", "reader"⟩],
        []⟩ 1 2 "admin").1 = RoleUpdateResult.privilegeRevoked ∧
    (updateUserRole ⟨[⟨1, "a", "a@x", "p", "reader"⟩, ⟨2, "b", "b@x", "p", "reader"⟩],
        []⟩ 1 2 "admin").2 =
      ⟨[⟨1, "a", "a@x", "p", "reader"⟩, ⟨2, "b", "b@x", "p", "reader"⟩], []⟩) :=
  ⟨((C2_privilege_revoked ⟨[⟨1, "a", "a@x", "p", "admin"⟩], []⟩ 1 2 "reader").1
      (by decide)).1,
   ((C2_privilege_revoked ⟨[⟨1, "a", "a@x", "p", "reader"⟩], []⟩ 1 2 "reader").1
      (by decide)).1,
   (C2_privilege_revoked ⟨[⟨1, "a", "a@x", "p", "reader"⟩,
      ⟨2, "b", "b@x", "p", "reader"⟩], []⟩ 1 2 "admin").2
    ⟨2, "b", "b@x", "p", "reader"⟩ (by decide)
    (fun a hA => by
      have : a = ⟨1, "a", "a@x", "p", "reader"⟩ := by
        simpa [findUserById] using hA.symm
      simp [this])⟩

/-! ### C3: self-modification ban -/

/-- C3: when the target exists and the actor's persisted role is admin, a
role-update call with `actorId = targetId` fails with
`selfModificationForbidden` and leaves the state (hence the target's role)
unchanged, for every requested role — valid or not — and with no condition
on the number of admins. -/
theorem C3_self_modification_forbidden (s : State) (actorId targetId : Nat)
    (newRole : String) (u a : User)
    (hT : findUserById s.users targetId = some u)
    (hA : findUserById s.users actorId = some a)
    (haRole : a.role = "admin")
    (heq : actorId = targetId) :
    (updateUserRole s actorId targetId newRole).1 =
      RoleUpdateResult.selfModificationForbidden ∧
    (updateUserRole s actorId targetId newRole).2 = s := by
  have hau : a = u := by
    rw [heq, hT] at hA
    exact (Option.some.inj hA).symm
  subst hau
  simp [updateUserRole, hT, hA, haRole, heq]

/-- Witness for C3 in a single-admin store with an invalid requested role. -/
theorem C3_self_modification_forbidden_witness :
    (updateUserRole ⟨[⟨1, "a", "a@x", "p", "admin"⟩], []⟩ 1 1 "superuser").1 =
      RoleUpdateResult.selfModificationForbidden ∧
    (updateUserRole ⟨[⟨1, "a", "a@x", "p", "admin"⟩], []⟩ 1 1 "superuser").2 =
      ⟨[⟨1, "a", "a@x", "p", "admin"⟩], []⟩ :=
  C3_self_modification_forbidden _ 1 1 "superuser" ⟨1, "a", "a@x", "p", "admin"⟩
    ⟨1, "a", "a@x", "p", "admin"⟩ (by decide) (by decide) rfl rfl

/-! ### C4: last-admin protection -/

/-- C4: past the earlier guards (target found, persisted admin actor,
distinct actor and target, valid requested role), demoting an admin fails
with `lastAdminProtection` and leaves the state unchanged when at most one
admin exists, and succeeds when at least two exist. -/
theorem C4_last_admin_protection (s : State) (actorId targetId : Nat)
    (newRole : String) (u a : User)
    (hT : findUserById s.users targetId = some u)
    (hA : findUserById s.users actorId = some a)
    (haRole : a.role = "admin")
    (hneq : actorId ≠ targetId)
    (hvalid : newRole ∈ validRoles)
    (huAdmin : u.role = "admin")
    (hnewNot : newRole ≠ "admin") :
    (countAdmins s.users ≤ 1 →
      (updateUserRole s actorId targetId newRole).1 =
        RoleUpdateResult.lastAdminProtection ∧
      (updateUserRole s actorId targetId newRole).2 = s) ∧
    (2 ≤ countAdmins s.users →
      (updateUserRole s actorId targetId newRole).1 = RoleUpdateResult.success) := by
  constructor
  · intro hle
    simp [updateUserRole, hT, hA, haRole, hneq, hvalid, huAdmin, hnewNot, hle]
  · intro hge
    have hgt : ¬countAdmins s.users ≤ 1 := by omega
    simp [updateUserRole, hT, hA, haRole, hneq, hvalid, huAdmin, hnewNot, hgt]

/-- Witness for C4: in a two-admin store the demotion of the second admin
goes through. -/
theorem C4_last_admin_protection_witness :
    (updateUserRole ⟨[⟨1, "a", "a@x", "p", "admin"⟩, ⟨2, "b", "b@x", "p", "admin"⟩],
      []⟩ 1 2 "reader").1 = RoleUpdateResult.success :=
  (C4_last_admin_protection _ 1 2 "reader" ⟨2, "b", "b@x", "p", "admin"⟩
    ⟨1, "a", "a@x", "p", "admin"⟩ (by decide) (by decide) rfl (by decide) (by decide)
    rfl (by decide)).2 (by decide)

/-! ### C5: admin ceiling -/

/-- C5: past the earlier guards, promoting a non-admin to admin fails with
`adminCeilingReached` and leaves the state unchanged when five or more
admins exist, and succeeds — making the target's stored role admin — when
at most four exist; when the target is already admin the count is not
consulted and the call succeeds. -/
theorem C5_admin_ceiling (s : State) (actorId targetId : Nat) (u a : User)
    (hT : findUserById s.users targetId = some u)
    (hA : findUserById s.users actorId = some a)
    (haRole : a.role = "admin")
    (hneq : actorId ≠ targetId) :
    (u.role ≠ "admin" → 5 ≤ countAdmins s.users →
      (updateUserRole s actorId targetId "admin").1 =
        RoleUpdateResult.adminCeilingReached ∧
      (updateUserRole s actorId targetId "admin").2 = s) ∧
    (u.role ≠ "admin" → countAdmins s.users ≤ 4 →
      (updateUserRole s actorId targetId "admin").1 = RoleUpdateResult.success ∧
      ∀ u2, findUserById (updateUserRole s actorId targetId "admin").2.users targetId =
        some u2 → u2.role = "admin") ∧
    (u.role = "admin" →
      (updateUserRole s actorId targetId "admin").1 = RoleUpdateResult.success) := by
  have hid : u.id = targetId := by simpa using List.find?_some hT
  refine ⟨?_, ?_, ?_⟩
  · intro hu h5
    simp [updateUserRole, hT, hA, haRole, hneq, validRoles, hu, h5]
  · intro hu h4
    have h5 : ¬5 ≤ countAdmins s.users := by omega
    have hstate : (updateUserRole s actorId targetId "admin").2 =
        { s with users := setUserRole s.users targetId "admin" } := by
      simp [updateUserRole, hT, hA, haRole, hneq, validRoles, hu, h5]
    refine ⟨by simp [updateUserRole, hT, hA, haRole, hneq, validRoles, hu, h5], ?_⟩
    intro u2 h2
    have hfind := find?_map_eq s.users
      (fun x => if x.id = targetId then { x with role := "admin" } else x)
      (fun x => x.id == targetId) (fun x => by simp [setUserRole_id_eq]) hT
    rw [hstate] at h2
    have h2' : findUserById (setUserRole s.users targetId "admin") targetId =
        some (if u.id = targetId then { u with role := "admin" } else u) := hfind
    rw [h2'] at h2
    have : u2 = if u.id = targetId then { u with role := "admin" } else u :=
      (Option.some.inj h2).symm
    rw [this, if_pos hid]
  · intro hu
    simp [updateUserRole, hT, hA, haRole, hneq, validRoles, hu]

/-- Witness for C5: promoting a reader in a one-admin store succeeds. -/
theorem C5_admin_ceiling_witness :
    (updateUserRole ⟨[⟨1, "a", "a@x", "p", "admin"⟩, ⟨2, "b", "b@x", "p", "reader"⟩],
      []⟩ 1 2 "admin").1 = RoleUpdateResult.success :=
  ((C5_admin_ceiling _ 1 2 ⟨2, "b", "b@x", "p", "reader"⟩ ⟨1, "a", "a@x", "p", "admin"⟩
    (by decide) (by decide) rfl (by decide)).2.1 (by decide) (by decide)).1

/-! ### C6: registration role assignment -/

/-- C6: every successful registration creates a user whose role is admin
exactly when the store held zero users at creation time and reader
otherwise, and appends that user to the store. -/
theorem C6_first_user_admin (s : State) (name email password : String) (newId : Nat)
    (u : User)
    (h : (registerUser s name email password newId).1 = RegisterResult.created u) :
    (u.role = if s.users.length = 0 then "admin" else "reader") ∧
    (registerUser s name email password newId).2.users = s.users ++ [u] := by
  cases hE : findUserByEmail s.users email with
  | some w => simp [registerUser, hE] at h
  | none =>
    simp only [registerUser, hE] at h ⊢
    have hu : u = ⟨newId, name, email, password,
        if s.users.length = 0 then "admin" else "reader"⟩ := by
      cases h
      rfl
    subst hu
    exact ⟨rfl, rfl⟩

/-- Witness for C6: the very first registration yields an admin; a second
one yields a reader. -/
theorem C6_first_user_admin_witness :
    ((User.mk 1 "a" "a@x" "p" "admin").role =
      if ([] : List User).length = 0 then "admin" else "reader") ∧
    ((User.mk 2 "b" "b@x" "p" "reader").role =
      if [User.mk 1 "a" "a@x" "p" "admin"].length = 0 then "admin" else "reader") :=
  ⟨(C6_first_user_admin ⟨[], []⟩ "a" "a@x" "p" 1 ⟨1, "a", "a@x", "p", "admin"⟩
      (by decide)).1,
   (C6_first_user_admin ⟨[⟨1, "a", "a@x", "p", "admin"⟩], []⟩ "b" "b@x" "p" 2
      ⟨2, "b", "b@x", "p", "reader"⟩ (by decide)).1⟩

/-! ### C7: comment deletion authorization -/

/-- C7: on an existing post and comment, deletion succeeds exactly when the
actor is an admin, the post's author, or the comment's owner; every other
authenticated actor gets `accessDenied` with the state unchanged. -/
theorem C7_comment_delete_authorization (s : State) (actor : Actor)
    (postId commentId : Nat) (post : Post) (comment : Comment)
    (hP : findPostById s.posts postId = some post)
    (hC : findCommentById post.comments commentId = some comment) :
    ((deleteComment s actor postId commentId).1 = PostOpResult.success ↔
      (actor.role = "admin" ∨ post.author = actor.id ∨ comment.user = actor.id)) ∧
    (¬(actor.role = "admin" ∨ post.author = actor.id ∨ comment.user = actor.id) →
      (deleteComment s actor postId commentId).1 = PostOpResult.accessDenied ∧
      (deleteComment s actor postId commentId).2 = s) := by
  have hred : deleteComment s actor postId commentId =
      if ¬(actor.role = "admin") ∧ ¬(post.author = actor.id) ∧
          ¬(comment.user = actor.id)
      then (PostOpResult.accessDenied, s)
      else (PostOpResult.success,
        { s with posts := removeCommentStored s.posts postId commentId }) := by
    simp [deleteComment, hP, hC]
  by_cases hauth : actor.role = "admin" ∨ post.author = actor.id ∨
      comment.user = actor.id
  · have hcond : ¬(¬(actor.role = "admin") ∧ ¬(post.author = actor.id) ∧
        ¬(comment.user = actor.id)) := by tauto
    rw [hred, if_neg hcond]
    exact ⟨⟨fun _ => hauth, fun _ => rfl⟩, fun h => absurd hauth h⟩
  · have hcond : ¬(actor.role = "admin") ∧ ¬(post.author = actor.id) ∧
        ¬(comment.user = actor.id) := by tauto
    rw [hred, if_pos hcond]
    exact ⟨⟨fun h => PostOpResult.noConfusion h, fun h => absurd h hauth⟩,
      fun _ => ⟨rfl, rfl⟩⟩

/-- Witness for C7: an unrelated reader cannot delete another user's
comment on another user's post. -/
theorem C7_comment_delete_authorization_witness :
    (deleteComment ⟨[], [⟨1, "T", "C", 7, [⟨4, 8, "hi"⟩]⟩]⟩ ⟨9, "reader"⟩ 1 4).1 =
      PostOpResult.accessDenied ∧
    (deleteComment ⟨[], [⟨1, "T", "C", 7, [⟨4, 8, "hi"⟩]⟩]⟩ ⟨9, "reader"⟩ 1 4).2 =
      ⟨[], [⟨1, "T", "C", 7, [⟨4, 8, "hi"⟩]⟩]⟩ :=
  (C7_comment_delete_authorization _ ⟨9, "reader"⟩ 1 4 ⟨1, "T", "C", 7, [⟨4, 8, "hi"⟩]⟩
    ⟨4, 8, "hi"⟩ (by decide) (by decide)).2 (by decide)

/-! ### C8: post update and delete ownership -/

/-- C8: on an existing post, an actor who is neither the post's author nor
an admin gets `accessDenied` from both update and delete with the state
unchanged; the author or an admin passes the ownership check and the
operation succeeds. -/
theorem C8_post_update_delete_ownership (s : State) (actor : Actor) (postId : Nat)
    (post : Post) (title content : Option String)
    (hP : findPostById s.posts postId = some post) :
    (post.author ≠ actor.id → actor.role ≠ "admin" →
      (updatePost s actor postId title content).1 = PostOpResult.accessDenied ∧
      (updatePost s actor postId title content).2 = s ∧
      (deletePost s actor postId).1 = PostOpResult.accessDenied ∧
      (deletePost s actor postId).2 = s) ∧
    (post.author = actor.id ∨ actor.role = "admin" →
      (updatePost s actor postId title content).1 = PostOpResult.success ∧
      (deletePost s actor postId).1 = PostOpResult.success) := by
  constructor
  · intro h1 h2
    refine ⟨?_, ?_, ?_, ?_⟩ <;> simp [updatePost, deletePost, hP, h1, h2]
  · intro h
    have hcond : ¬(post.author ≠ actor.id ∧ actor.role ≠ "admin") := by tauto
    exact ⟨by simp [updatePost, hP, hcond], by simp [deletePost, hP, hcond]⟩

/-- Witness for C8: an unrelated non-admin cannot update or delete another
author's post; the author can. -/
theorem C8_post_update_delete_ownership_witness :
    ((updatePost ⟨[], [⟨1, "T", "C", 7, []⟩]⟩ ⟨9, "author"⟩ 1 (some "X") (some "Y")).1 =
      PostOpResult.accessDenied) ∧
    ((deletePost ⟨[], [⟨1, "T", "C", 7, []⟩]⟩ ⟨7, "author"⟩ 1).1 =
      PostOpResult.success) :=
  ⟨((C8_post_update_delete_ownership _ ⟨9, "author"⟩ 1 ⟨1, "T", "C", 7, []⟩
      (some "X") (some "Y") (by decide)).1 (by decide) (by decide)).1,
   ((C8_post_update_delete_ownership _ ⟨7, "author"⟩ 1 ⟨1, "T", "C", 7, []⟩
      (some "X") (some "Y") (by decide)).2 (Or.inl rfl)).2⟩

/-! ### C9: falsy-value fallback in post update -/

/-- A falsy title or content leaves the stored value in place. -/
lemma jsOrElse_falsy (v : Option String) (old : String)
    (h : v = none ∨ v = some "") : jsOrElse v old = old := by
  rcases h with h | h <;> subst h <;> simp [jsOrElse]

/-- The fallback can only produce the empty string when the stored value
was already empty. -/
lemma jsOrElse_empty (v : Option String) (old : String)
    (h : jsOrElse v old = "") : old = "" := by
  cases v with
  | none => exact h
  | some w =>
    by_cases hw : w = ""
    · simpa [jsOrElse, hw] using h
    · simp only [jsOrElse, if_neg hw] at h
      exact absurd h hw

/-- The write-back of `updatePostStored` never changes a post's id. -/
lemma updatePostStored_id_eq (p : Post) (postId : Nat) (t c : Option String) :
    (if p.id = postId then
      { p with title := jsOrElse t p.title, content := jsOrElse c p.content }
    else p).id = p.id := by
  split <;> rfl

/-- C9: an authorized update of an existing post keeps the stored title
(resp. content) whenever the supplied one is absent or empty, and can never
turn a non-empty stored title (resp. content) into the empty string. -/
theorem C9_update_falsy_fallback (s : State) (actor : Actor) (postId : Nat)
    (post post2 : Post) (title content : Option String)
    (hP : findPostById s.posts postId = some post)
    (hauth : post.author = actor.id ∨ actor.role = "admin")
    (h2 : findPostById (updatePost s actor postId title content).2.posts postId =
      some post2) :
    ((title = none ∨ title = some "") → post2.title = post.title) ∧
    ((content = none ∨ content = some "") → post2.content = post.content) ∧
    (post2.title = "" → post.title = "") ∧
    (post2.content = "" → post.content = "") := by
  have hid : post.id = postId := by simpa using List.find?_some hP
  have hcond : ¬(post.author ≠ actor.id ∧ actor.role ≠ "admin") := by tauto
  have hstate : (updatePost s actor postId title content).2 =
      { s with posts := updatePostStored s.posts postId title content } := by
    simp [updatePost, hP, hcond]
  have hfind := find?_map_eq s.posts
    (fun p => if p.id = postId then
      { p with title := jsOrElse title p.title, content := jsOrElse content p.content }
    else p)
    (fun p => p.id == postId) (fun p => by simp [updatePostStored_id_eq]) hP
  rw [hstate] at h2
  have h2' : findPostById (updatePostStored s.posts postId title content) postId =
      some (if post.id = postId then
        { post with title := jsOrElse title post.title,
                    content := jsOrElse content post.content }
      else post) := hfind
  rw [h2', if_pos hid] at h2
  have hpost2 : post2 =
      { post with title := jsOrElse title post.title,
                  content := jsOrElse content post.content } :=
    (Option.some.inj h2).symm
  subst hpost2
  exact ⟨fun h => jsOrElse_falsy title post.title h,
    fun h => jsOrElse_falsy content post.content h,
    fun h => jsOrElse_empty title post.title h,
    fun h => jsOrElse_empty content post.content h⟩

/-- Witness for C9: updating with an empty title and a null content leaves
both fields as they were. -/
theorem C9_update_falsy_fallback_witness :
    ((Post.mk 1 "T" "C" 7 []).title = (Post.mk 1 "T" "C" 7 []).title) ∧
    ((Post.mk 1 "T" "C" 7 []).content = (Post.mk 1 "T" "C" 7 []).content) :=
  ⟨((C9_update_falsy_fallback ⟨[], [⟨1, "T", "C", 7, []⟩]⟩ ⟨7, "author"⟩ 1
      ⟨1, "T", "C", 7, []⟩ ⟨1, "T", "C", 7, []⟩ (some "") none (by decide)
      (Or.inl rfl) (by decide)).1 (Or.inr rfl)),
   ((C9_update_falsy_fallback ⟨[], [⟨1, "T", "C", 7, []⟩]⟩ ⟨7, "author"⟩ 1
      ⟨1, "T", "C", 7, []⟩ ⟨1, "T", "C", 7, []⟩ (some "") none (by decide)
      (Or.inl rfl) (by decide)).2.1 (Or.inl rfl))⟩

/-! ### C10: adding a comment appends it and changes nothing else -/

/-- The write-back of `addCommentStored` never changes a post's id. -/
lemma addCommentStored_id_eq (p : Post) (postId : Nat) (c : Comment) :
    (if p.id = postId then { p with comments := p.comments ++ [c] } else p).id = p.id := by
  split <;> rfl

/-- C10: adding a comment to an existing post succeeds, appends the new
comment — carrying the actor's id — at the end of the post's comment list,
preserves the post's title, content and author, leaves the users
collection untouched, and keeps every other post in the store. -/
theorem C10_add_comment_appends (s : State) (actor : Actor) (postId : Nat)
    (text : String) (newCommentId : Nat) (post post2 : Post)
    (hP : findPostById s.posts postId = some post)
    (h2 : findPostById (addComment s actor postId text newCommentId).2.posts postId =
      some post2) :
    (addComment s actor postId text newCommentId).1 = PostOpResult.success ∧
    post2.comments = post.comments ++ [⟨newCommentId, actor.id, text⟩] ∧
    post2.title = post.title ∧ post2.content = post.content ∧
    post2.author = post.author ∧
    (addComment s actor postId text newCommentId).2.users = s.users ∧
    ∀ q ∈ s.posts, q.id ≠ postId →
      q ∈ (addComment s actor postId text newCommentId).2.posts := by
  have hid : post.id = postId := by simpa using List.find?_some hP
  have hstate : (addComment s actor postId text newCommentId).2 =
      { s with posts :=
        addCommentStored s.posts postId ⟨newCommentId, actor.id, text⟩ } := by
    simp [addComment, hP]
  have hfind := find?_map_eq s.posts
    (fun p => if p.id = postId then
      { p with comments := p.comments ++ [⟨newCommentId, actor.id, text⟩] } else p)
    (fun p => p.id == postId) (fun p => by simp [addCommentStored_id_eq]) hP
  rw [hstate] at h2
  have h2' : findPostById
      (addCommentStored s.posts postId ⟨newCommentId, actor.id, text⟩) postId =
      some (if post.id = postId then
        { post with comments := post.comments ++ [⟨newCommentId, actor.id, text⟩] }
      else post) := hfind
  rw [h2', if_pos hid] at h2
  have hpost2 : post2 =
      { post with comments := post.comments ++ [⟨newCommentId, actor.id, text⟩] } :=
    (Option.some.inj h2).symm
  subst hpost2
  refine ⟨by simp [addComment, hP], rfl, rfl, rfl, rfl, by rw [hstate], ?_⟩
  intro q hq hqid
  rw [hstate]
  have : (if q.id = postId then
      { q with comments := q.comments ++ [⟨newCommentId, actor.id, text⟩] } else q) ∈
      addCommentStored s.posts postId ⟨newCommentId, actor.id, text⟩ :=
    List.mem_map_of_mem _ hq
  rwa [if_neg hqid] at this

/-- Witness for C10: a reader's comment lands at the end of the post's
comment list. -/
theorem C10_add_comment_appends_witness :
    (addComment ⟨[], [⟨1, "T", "C", 7, [⟨4, 8, "hi"⟩]⟩]⟩ ⟨9, "reader"⟩ 1 "yo" 5).1 =
      PostOpResult.success ∧
    [Comment.mk 4 8 "hi", Comment.mk 5 9 "yo"] =
      [Comment.mk 4 8 "hi"] ++ [Comment.mk 5 9 "yo"] :=
  ⟨(C10_add_comment_appends ⟨[], [⟨1, "T", "C", 7, [⟨4, 8, "hi"⟩]⟩]⟩ ⟨9, "reader"⟩ 1
      "yo" 5 ⟨1, "T", "C", 7, [⟨4, 8, "hi"⟩]⟩
      ⟨1, "T", "C", 7, [⟨4, 8, "hi"⟩, ⟨5, 9, "yo"⟩]⟩ (by decide) (by decide)).1,
   (C10_add_comment_appends ⟨[], [⟨1, "T", "C", 7, [⟨4, 8, "hi"⟩]⟩]⟩ ⟨9, "reader"⟩ 1
      "yo" 5 ⟨1, "T", "C", 7, [⟨4, 8, "hi"⟩]⟩
      ⟨1, "T", "C", 7, [⟨4, 8, "hi"⟩, ⟨5, 9, "yo"⟩]⟩ (by decide) (by decide)).2.1⟩

/-! ### C1: admin retention -/

/-- Mapping a list can lower a `countP` by at most the number of elements
on which the map may break the predicate. -/
lemma countP_map_sub_le (p q : User → Bool) (f : User → User) (l : List User)
    (hf : ∀ x ∈ l, q x = false → p (f x) = p x) :
    l.countP p - l.countP q ≤ (l.map f).countP p := by
  rw [List.countP_map]
  induction l with
  | nil => simp
  | cons x xs ih =>
    have ih' := ih (fun y hy hq => hf y (List.mem_cons_of_mem x hy) hq)
    rw [List.countP_cons, List.countP_cons, List.countP_cons]
    simp only [Function.comp_apply]
    cases hq : q x with
    | false =>
      have hpx : p (f x) = p x := hf x (List.mem_cons_self x xs) hq
      simp only [hpx]
      cases hp : p x <;> simp <;> omega
    | true =>
      have hb : (if p (f x) = true then (1 : Nat) else 0) ≤ 1 := by
        split <;> omega
      cases hp : p x <;> simp <;> omega

/-- In a store with no duplicate ids, at most one user matches a given id. -/
lemma countP_id_le_one (l : List User) (tid : Nat)
    (hnd : (l.map User.id).Nodup) :
    l.countP (fun u => u.id == tid) ≤ 1 := by
  induction l with
  | nil => simp
  | cons x xs ih =>
    rw [List.map_cons, List.nodup_cons] at hnd
    rw [List.countP_cons]
    by_cases hx : x.id = tid
    · have h0 : xs.countP (fun u => u.id == tid) = 0 := by
        rw [List.countP_eq_zero]
        intro a ha
        simp only [beq_iff_eq]
        intro haid
        have hmem : a.id ∈ xs.map User.id := List.mem_map_of_mem User.id ha
        rw [haid, ← hx] at hmem
        exact hnd.1 hmem
      simp [h0, hx]
    · simpa [hx] using ih hnd.2

/-- Two store members with the same id are the same user when ids are
duplicate-free. -/
lemma mem_eq_of_nodup_id (l : List User) (hnd : (l.map User.id).Nodup)
    (x y : User) (hx : x ∈ l) (hy : y ∈ l) (h : x.id = y.id) : x = y :=
  List.inj_on_of_nodup_map hnd hx hy h

/-- Every run of the role update either leaves the state unchanged (one of
the guards refused it) or performs the write-back — and in the latter case
the target was found and the last-admin guard did not fire. -/
lemma updateUserRole_state_cases (s : State) (actorId targetId : Nat)
    (newRole : String) :
    (updateUserRole s actorId targetId newRole).2 = s ∨
    ∃ u, findUserById s.users targetId = some u ∧
      ¬(u.role = "admin" ∧ newRole ≠ "admin" ∧ countAdmins s.users ≤ 1) ∧
      (updateUserRole s actorId targetId newRole).2 =
        { s with users := setUserRole s.users targetId newRole } := by
  unfold updateUserRole
  split
  next => exact Or.inl rfl
  next u hT =>
    split
    next => exact Or.inl rfl
    next a hA =>
      by_cases h1 : a.role ≠ "admin"
      · rw [if_pos h1]
        exact Or.inl rfl
      rw [if_neg h1]
      by_cases h2 : actorId = targetId
      · rw [if_pos h2]
        exact Or.inl rfl
      rw [if_neg h2]
      by_cases h3 : newRole ∉ validRoles
      · rw [if_pos h3]
        exact Or.inl rfl
      rw [if_neg h3]
      by_cases h4 : u.role = "admin" ∧ newRole ≠ "admin" ∧ countAdmins s.users ≤ 1
      · rw [if_pos h4]
        exact Or.inl rfl
      rw [if_neg h4]
      by_cases h5 : newRole = "admin" ∧ u.role ≠ "admin" ∧ 5 ≤ countAdmins s.users
      · rw [if_pos h5]
        exact Or.inl rfl
      rw [if_neg h5]
      exact Or.inr ⟨u, hT, h4, rfl⟩

/-- The role update preserves the presence of at least one admin: a refused
call leaves the store alone, a demotion of an admin requires a second
admin, and every other write keeps or grows the admin count. -/
lemma updateUserRole_preserves_admin (s : State) (actorId targetId : Nat)
    (newRole : String) (hnd : (s.users.map User.id).Nodup)
    (h1 : 1 ≤ countAdmins s.users) :
    1 ≤ countAdmins (updateUserRole s actorId targetId newRole).2.users := by
  rcases updateUserRole_state_cases s actorId targetId newRole with hsame |
    ⟨u, hT, hg5, hwrite⟩
  · rw [hsame]
    exact h1
  · rw [hwrite]
    show 1 ≤ countAdmins (setUserRole s.users targetId newRole)
    have hu_mem : u ∈ s.users := List.mem_of_find?_eq_some hT
    have hu_id : u.id = targetId := by simpa using List.find?_some hT
    by_cases hnr : newRole = "admin"
    · -- the target ends up an admin, so at least one admin remains
      have hpos : 0 < (setUserRole s.users targetId newRole).countP
          (fun x => x.role == "admin") := by
        rw [List.countP_pos_iff]
        refine ⟨if u.id = targetId then { u with role := newRole } else u,
          List.mem_map_of_mem _ hu_mem, ?_⟩
        rw [if_pos hu_id]
        simp [hnr]
      exact hpos
    · -- the new role is not admin: only a user that both matches the
      -- target id and is an admin can lose admin status
      have hf : ∀ x ∈ s.users,
          ((x.id == targetId) && (x.role == "admin")) = false →
          ((if x.id = targetId then { x with role := newRole } else x).role ==
            "admin") = (x.role == "admin") := by
        intro x _ hq
        by_cases hxid : x.id = targetId
        · have hxrole : ¬(x.role = "admin") := by
            intro hxr
            rw [Bool.and_eq_false_iff] at hq
            rcases hq with hq | hq
            · simp [hxid] at hq
            · simp [hxr] at hq
          simp [hxid, hxrole, hnr]
        · simp [hxid]
      have hkey := countP_map_sub_le (fun x => x.role == "admin")
        (fun x => (x.id == targetId) && (x.role == "admin"))
        (fun x => if x.id = targetId then { x with role := newRole } else x)
        s.users hf
      by_cases hur : u.role = "admin"
      · -- demotion of an admin: the guard guarantees a second admin
        have hcount2 : 2 ≤ countAdmins s.users := by
          by_contra hlt
          exact hg5 ⟨hur, hnr, by omega⟩
        have hq_le : s.users.countP
            (fun x => (x.id == targetId) && (x.role == "admin")) ≤ 1 := by
          calc s.users.countP (fun x => (x.id == targetId) && (x.role == "admin"))
              ≤ s.users.countP (fun x => x.id == targetId) :=
                List.countP_mono_left (fun x _ hx => by
                  rw [Bool.and_eq_true] at hx
                  exact hx.1)
            _ ≤ 1 := countP_id_le_one s.users targetId hnd
        unfold countAdmins at hcount2 ⊢
        unfold setUserRole
        omega
      · -- the target is not an admin, so no admin is touched at all
        have hq_zero : s.users.countP
            (fun x => (x.id == targetId) && (x.role == "admin")) = 0 := by
          rw [List.countP_eq_zero]
          intro x hx hqx
          rw [Bool.and_eq_true, beq_iff_eq, beq_iff_eq] at hqx
          have hxu : x = u := mem_eq_of_nodup_id s.users hnd x u hx hu_mem
            (by rw [hqx.1, hu_id])
          exact hur (hxu ▸ hqx.2)
        unfold countAdmins at h1 ⊢
        unfold setUserRole
        omega

/-- C1 (counterexample to the claim as stated): `deleteUser` has no
last-admin guard, so deleting the only admin of a one-admin store succeeds
and leaves the system with zero admins. -/
theorem C1_delete_last_admin_counterexample :
    countAdmins [⟨1, "a", "a@x", "p", "admin"⟩] = 1 ∧
    (deleteUser ⟨[⟨1, "a", "a@x", "p", "admin"⟩], []⟩ 1).1 =
      DeleteUserResult.success ∧
    countAdmins (deleteUser ⟨[⟨1, "a", "a@x", "p", "admin"⟩], []⟩ 1).2.users = 0 := by
  refine ⟨by decide, by decide, by decide⟩

/-- C1 (amended): in a store without duplicate ids, every public operation
except user deletion — registration, login, role update, and all post and
comment operations — preserves the presence of at least one admin. -/
theorem C1_admin_retention (s : State)
    (hnd : (s.users.map User.id).Nodup)
    (h1 : 1 ≤ countAdmins s.users)
    (name email password : String) (newId : Nat) (pwMatches : String → Bool)
    (actorId targetId : Nat) (newRole : String) (actor : Actor)
    (postId commentId newPostId newCommentId : Nat)
    (ptitle pcontent text : String) (otitle ocontent : Option String) :
    1 ≤ countAdmins (registerUser s name email password newId).2.users ∧
    1 ≤ countAdmins (loginUser s email pwMatches).2.users ∧
    1 ≤ countAdmins (updateUserRole s actorId targetId newRole).2.users ∧
    1 ≤ countAdmins (createPost s actor ptitle pcontent newPostId).2.users ∧
    1 ≤ countAdmins (updatePost s actor postId otitle ocontent).2.users ∧
    1 ≤ countAdmins (deletePost s actor postId).2.users ∧
    1 ≤ countAdmins (addComment s actor postId text newCommentId).2.users ∧
    1 ≤ countAdmins (deleteComment s actor postId commentId).2.users := by
  refine ⟨?_, ?_, updateUserRole_preserves_admin s actorId targetId newRole hnd h1,
    h1, ?_, ?_, ?_, ?_⟩
  · cases hE : findUserByEmail s.users email with
    | some w => simpa [registerUser, hE] using h1
    | none =>
      simp only [registerUser, hE]
      unfold countAdmins at h1 ⊢
      rw [List.countP_append]
      omega
  · cases hE : findUserByEmail s.users email with
    | some w =>
      cases hpw : pwMatches w.password <;> simpa [loginUser, hE, hpw] using h1
    | none => simpa [loginUser, hE] using h1
  · cases hP : findPostById s.posts postId with
    | none => simpa [updatePost, hP] using h1
    | some post =>
      by_cases hc : post.author ≠ actor.id ∧ actor.role ≠ "admin" <;>
        simpa [updatePost, hP, hc] using h1
  · cases hP : findPostById s.posts postId with
    | none => simpa [deletePost, hP] using h1
    | some post =>
      by_cases hc : post.author ≠ actor.id ∧ actor.role ≠ "admin" <;>
        simpa [deletePost, hP, hc] using h1
  · cases hP : findPostById s.posts postId with
    | none => simpa [addComment, hP] using h1
    | some post => simpa [addComment, hP] using h1
  · cases hP : findPostById s.posts postId with
    | none => simpa [deleteComment, hP] using h1
    | some post =>
      cases hC : findCommentById post.comments commentId with
      | none => simpa [deleteComment, hP, hC] using h1
      | some comment =>
        by_cases hc : ¬(actor.role = "admin") ∧ ¬(post.author = actor.id) ∧
            ¬(comment.user = actor.id) <;>
          simpa [deleteComment, hP, hC, hc] using h1

/-- Witness for C1 (amended) at a concrete one-admin store. -/
theorem C1_admin_retention_witness :
    1 ≤ countAdmins (registerUser ⟨[⟨1, "a", "a@x", "p", "admin"⟩], []⟩
      "b" "b@x" "p" 2).2.users ∧
    1 ≤ countAdmins (loginUser ⟨[⟨1, "a", "a@x", "p", "admin"⟩], []⟩
      "a@x" (fun _ => true)).2.users ∧
    1 ≤ countAdmins (updateUserRole ⟨[⟨1, "a", "a@x", "p", "admin"⟩], []⟩
      1 1 "reader").2.users ∧
    1 ≤ countAdmins (createPost ⟨[⟨1, "a", "a@x", "p", "admin"⟩], []⟩
      ⟨1, "admin"⟩ "T" "C" 1).2.users ∧
    1 ≤ countAdmins (updatePost ⟨[⟨1, "a", "a@x", "p", "admin"⟩], []⟩
      ⟨1, "admin"⟩ 1 none none).2.users ∧
    1 ≤ countAdmins (deletePost ⟨[⟨1, "a", "a@x", "p", "admin"⟩], []⟩
      ⟨1, "admin"⟩ 1).2.users ∧
    1 ≤ countAdmins (addComment ⟨[⟨1, "a", "a@x", "p", "admin"⟩], []⟩
      ⟨1, "admin"⟩ 1 "hi" 1).2.users ∧
    1 ≤ countAdmins (deleteComment ⟨[⟨1, "a", "a@x", "p", "admin"⟩], []⟩
      ⟨1, "admin"⟩ 1 1).2.users :=
  C1_admin_retention ⟨[⟨1, "a", "a@x", "p", "admin"⟩], []⟩ (by decide) (by decide)
    "b" "b@x" "p" 2 (fun _ => true) 1 1 "reader" ⟨1, "admin"⟩ 1 1 1 1 "T" "C" "hi"
    none none

end ContentBackend
